import Mathlib

/-!
Shallow embedding of `src/movesense/movesense_sensor.py` (the Movesense data
collector's sensor module).  Python floats are modelled as rationals (`ℚ`), so
all timestamp arithmetic is exact; Python byte strings are lists of naturals
(each < 256); fallible Python code (code that can raise) is modelled in
`Except PyErr`.  The process-wide `MovesenseSensor.id_counter` is modelled by
explicit state passing of the counter value.
-/

/-- The `MovesenseSensorType` enum (movesense_sensor.py lines 8-16): the fixed
catalog of sensor kinds. -/
inductive MovesenseSensorType
  | ACCELEROMETER
  | GYROSCOPE
  | MAGNETOMETER
  | TEMPERATURE
  | ECG
  | HEART_RATE
  | IMU6
  | IMU9
deriving DecidableEq, Repr, Fintype

/-- The `_value_` (wire-tag string) of each `MovesenseSensorType` member, as set
by `__new__` from the first tuple component (lines 9-16, 18-22). -/
def MovesenseSensorType.value : MovesenseSensorType → String
  | .ACCELEROMETER => "Acc"
  | .GYROSCOPE => "Gyro"
  | .MAGNETOMETER => "Magn"
  | .TEMPERATURE => "Temp"
  | .ECG => "ECG"
  | .HEART_RATE => "HR"
  | .IMU6 => "IMU6"
  | .IMU9 => "IMU9"

/-- The `axes` attribute of each `MovesenseSensorType` member, the second tuple
component (lines 9-16, 18-22). -/
def MovesenseSensorType.axes : MovesenseSensorType → Nat
  | .ACCELEROMETER => 3
  | .GYROSCOPE => 3
  | .MAGNETOMETER => 3
  | .TEMPERATURE => 1
  | .ECG => 1
  | .HEART_RATE => 1
  | .IMU6 => 6
  | .IMU9 => 9

/-- Enumeration order of the `MovesenseSensorType` members, i.e. the order in
which `for member in cls` iterates (declaration order, lines 9-16). -/
def sensorTypeMembers : List MovesenseSensorType :=
  [.ACCELEROMETER, .GYROSCOPE, .MAGNETOMETER, .TEMPERATURE, .ECG, .HEART_RATE, .IMU6, .IMU9]

/-- The `MovesenseSamplingRate` enum (movesense_sensor.py lines 36-53): the
fixed catalog of permitted sampling rates. -/
inductive MovesenseSamplingRate
  | _13_HZ
  | _26_HZ
  | _52_HZ
  | _104_HZ
  | _208_HZ
  | _416_HZ
  | _833_HZ
  | _1666_HZ
  | _125_HZ
  | _128_HZ
  | _200_HZ
  | _250_HZ
  | _256_HZ
  | _500_HZ
  | _512_HZ
deriving DecidableEq, Repr, Fintype

/-- The numeric value of each `MovesenseSamplingRate` member (lines 37-53). -/
def MovesenseSamplingRate.value : MovesenseSamplingRate → Nat
  | ._13_HZ => 13
  | ._26_HZ => 26
  | ._52_HZ => 52
  | ._104_HZ => 104
  | ._208_HZ => 208
  | ._416_HZ => 416
  | ._833_HZ => 833
  | ._1666_HZ => 1666
  | ._125_HZ => 125
  | ._128_HZ => 128
  | ._200_HZ => 200
  | ._250_HZ => 250
  | ._256_HZ => 256
  | ._500_HZ => 500
  | ._512_HZ => 512

/-- Enumeration order of the `MovesenseSamplingRate` members (declaration
order, lines 37-53). -/
def samplingRateMembers : List MovesenseSamplingRate :=
  [._13_HZ, ._26_HZ, ._52_HZ, ._104_HZ, ._208_HZ, ._416_HZ, ._833_HZ, ._1666_HZ,
   ._125_HZ, ._128_HZ, ._200_HZ, ._250_HZ, ._256_HZ, ._500_HZ, ._512_HZ]

/-- A dynamically typed Python value as it can reach the `MovesenseSensor`
constructor or the catalog lookups: a string, an integer, or a member of one of
the two enums.  (The enum *class objects* themselves are not values of this
type; no caller passes the class itself as data.) -/
inductive PyVal
  | vstr : String → PyVal
  | vint : Int → PyVal
  | vtype : MovesenseSensorType → PyVal
  | vrate : MovesenseSamplingRate → PyVal
deriving DecidableEq, Repr

/-- The distinguishable failures the module can raise.  `unknownSensorKind` and
`unknownSamplingRate` model the `ValueError("No member with the value ...")` of
`from_string` (line 33) and `from_int` (line 60); `malformedPath` models the
`ValueError` raised by 4-way tuple unpacking of `path.split("/")` or by
`int(...)` in `from_path` (lines 90-91); `malformedBuffer` models the numpy
`ValueError` of `reshape(-1, axes)` on a buffer whose size is not a multiple of
`axes` (line 99); `attributeError` models Python's `AttributeError` (e.g.
calling `.startswith` on a non-string, line 29); `idOutOfRange` models the
`ValueError` of `bytearray([1, self.id])` when the id exceeds 255 (line 83). -/
inductive PyErr
  | unknownSensorKind : PyVal → PyErr
  | unknownSamplingRate : PyVal → PyErr
  | malformedPath : String → PyErr
  | malformedBuffer : Nat → Nat → PyErr
  | attributeError : String → PyErr
  | idOutOfRange : Nat → PyErr
deriving DecidableEq, Repr

/-- Decidable equality for `Except`, so that concrete runs of the fallible
operations can be checked by `decide`. -/
instance {ε α : Type} [DecidableEq ε] [DecidableEq α] : DecidableEq (Except ε α) := fun a b =>
  match a, b with
  | .ok x, .ok y => decidable_of_iff (x = y) (by simp)
  | .error x, .error y => decidable_of_iff (x = y) (by simp)
  | .ok _, .error _ => isFalse (by simp)
  | .error _, .ok _ => isFalse (by simp)

/-- Python `==` between a `str` on the left and an arbitrary value on the
right: string equality when the right side is a string, `False` for any other
type (plain `Enum` members never compare equal to their underlying values). -/
def pyEqStr (s : String) : PyVal → Bool
  | .vstr t => s == t
  | _ => false

/-- Python `==` between an `int` on the left and an arbitrary value on the
right: integer equality when the right side is an integer, `False` otherwise
(plain `Enum` members never compare equal to their underlying values). -/
def pyEqInt (n : Int) : PyVal → Bool
  | .vint m => n == m
  | _ => false

/-- Python `s.startswith(p)` for two strings: `p` is a prefix of `s`. -/
def pyStartsWithStr (s p : String) : Bool :=
  p.toList.isPrefixOf s.toList

/-- Python `value.startswith(p)` on a dynamically typed `value`: the prefix
test when `value` is a string, an `AttributeError` for any other type. -/
def pyStartsWith (value : PyVal) (p : String) : Except PyErr Bool :=
  match value with
  | .vstr s => .ok (pyStartsWithStr s p)
  | _ => .error (.attributeError "startswith")

/-- Loop body of `MovesenseSensorType.from_string` (lines 26-32), scanning the
members in enumeration order.  Per member: `member.value == value` returns the
member; `elif value.startswith(member.value)` returns the member (raising
`AttributeError` when `value` is not a string); `elif value == "IMU"` returns
`IMU9`; otherwise the scan continues. -/
def fromStringValGo (value : PyVal) : List MovesenseSensorType → Except PyErr MovesenseSensorType
  | [] => .error (.unknownSensorKind value)
  | m :: rest =>
    if pyEqStr m.value value then .ok m
    else
      match pyStartsWith value m.value with
      | .error e => .error e
      | .ok true => .ok m
      | .ok false =>
        if pyEqStr "IMU" value then .ok .IMU9
        else fromStringValGo value rest

/-- The classmethod `MovesenseSensorType.from_string(value)` (lines 24-33): the
scan over the members in enumeration order, raising
`ValueError("No member with the value ...")` when no rule fires. -/
def fromStringVal (value : PyVal) : Except PyErr MovesenseSensorType :=
  fromStringValGo value sensorTypeMembers

/-- Loop body of `MovesenseSamplingRate.from_int` (lines 57-59): exact-match
scan over the members in enumeration order. -/
def fromIntValGo (value : PyVal) : List MovesenseSamplingRate → Except PyErr MovesenseSamplingRate
  | [] => .error (.unknownSamplingRate value)
  | m :: rest =>
    if pyEqInt (m.value : Int) value then .ok m
    else fromIntValGo value rest

/-- The classmethod `MovesenseSamplingRate.from_int(value)` (lines 55-60). -/
def fromIntVal (value : PyVal) : Except PyErr MovesenseSamplingRate :=
  fromIntValGo value samplingRateMembers

/-- Python `x is MovesenseSensorType` / `x is MovesenseSamplingRate` as written
in `__init__` (lines 74 and 76): object *identity with the enum class itself*
(not an `isinstance` test).  A string, an integer, or an enum *member* is never
the class object, so the test is `False` for every modelled value. -/
def pyIsEnumClass : PyVal → Bool := fun _ => false

/-- Resolution of the `sensor_type` argument in `MovesenseSensor.__init__`
(lines 74-75): `sensor_type if sensor_type is MovesenseSensorType else
MovesenseSensorType.from_string(sensor_type)`.  Because `is` compares with the
class object, the first branch is unreachable for every modelled value and
`from_string` always runs (the error in the dead branch is never produced). -/
def initSensorType (sensor_type : PyVal) : Except PyErr MovesenseSensorType :=
  if pyIsEnumClass sensor_type then .error (.attributeError "unreachable")
  else fromStringVal sensor_type

/-- Resolution of the `sampling_rate` argument in `MovesenseSensor.__init__`
(lines 76-77), analogous to `initSensorType`. -/
def initSamplingRate (sampling_rate : PyVal) : Except PyErr MovesenseSamplingRate :=
  if pyIsEnumClass sampling_rate then .error (.attributeError "unreachable")
  else fromIntVal sampling_rate

/-- UTF-8 encoding of a single character, as a list of byte values. -/
def utf8EncodeCharNat (c : Char) : List Nat :=
  let n := c.toNat
  if n < 128 then [n]
  else if n < 2048 then [192 + n / 64, 128 + n % 64]
  else if n < 65536 then [224 + n / 4096, 128 + (n / 64) % 64, 128 + n % 64]
  else [240 + n / 262144, 128 + (n / 4096) % 64, 128 + (n / 64) % 64, 128 + n % 64]

/-- Python `bytearray(s, "utf-8")`: the UTF-8 bytes of a string. -/
def utf8Bytes (s : String) : List Nat :=
  s.toList.flatMap utf8EncodeCharNat

/-- The f-string `f"/Meas/{self.sensor_type.value}/{self.sampling_rate.value}"`
(line 84). -/
def pathText (k : MovesenseSensorType) (r : MovesenseSamplingRate) : String :=
  "/Meas/" ++ k.value ++ "/" ++ Nat.repr r.value

/-- The path computation `bytearray([1, self.id]) + bytearray(f"/Meas/.../...",
"utf-8")` (lines 83-84).  `bytearray([1, sensor_id])` raises `ValueError` when
`sensor_id` does not fit in a byte. -/
def encodePath (sensor_id : Nat) (k : MovesenseSensorType) (r : MovesenseSamplingRate) :
    Except PyErr (List Nat) :=
  if sensor_id < 256 then .ok (1 :: sensor_id :: utf8Bytes (pathText k r))
  else .error (.idOutOfRange sensor_id)

/-- One decoded sample, the dict appended in `notification_handler`
(lines 110-115). -/
structure Sample where
  timestamp : ℚ
  device : String
  sensor_type : String
  sensor_data : List ℚ
deriving DecidableEq, Repr

/-- The state of one `MovesenseSensor` instance: resolved kind and rate, the
allocated id, the subscription path bytes, and the sample log `self.data`. -/
structure MovesenseSensor where
  sensor_type : MovesenseSensorType
  sampling_rate : MovesenseSamplingRate
  id : Nat
  path : List Nat
  data : List Sample
deriving DecidableEq, Repr

/-- `MovesenseSensor.__init__(sensor_type, sampling_rate)` (lines 72-86) with
the class attribute `id_counter` passed as explicit state.  The order of
effects mirrors the source: resolve the kind (an exception here leaves the
counter untouched), resolve the rate (likewise), read the counter into
`self.id` and increment it (lines 79-80), then build the path (lines 83-84,
where an oversized id raises *after* the increment), and start with an empty
sample log (line 86). -/
def initSensor (sensor_type sampling_rate : PyVal) (counter : Nat) :
    Except PyErr MovesenseSensor × Nat :=
  match initSensorType sensor_type with
  | .error e => (.error e, counter)
  | .ok k =>
    match initSamplingRate sampling_rate with
    | .error e => (.error e, counter)
    | .ok r =>
      match encodePath counter k r with
      | .error e => (.error e, counter + 1)
      | .ok p =>
        (.ok { sensor_type := k, sampling_rate := r, id := counter, path := p, data := [] },
         counter + 1)

/-- Helper for `pySplitSlash`: splits a character list at every occurrence of
`sep`, keeping empty segments, with `acc` the (reversed) current segment. -/
def splitOnCharAux (sep : Char) : List Char → List Char → List (List Char)
  | [], acc => [acc.reverse]
  | c :: cs, acc =>
    if c == sep then acc.reverse :: splitOnCharAux sep cs []
    else splitOnCharAux sep cs (c :: acc)

/-- Python `path.split("/")` (line 90): split on every `/`, keeping empty
segments (so `"/Meas/Gyro/208"` yields `["", "Meas", "Gyro", "208"]`). -/
def pySplitSlash (path : String) : List String :=
  (splitOnCharAux '/' path.toList []).map String.mk

/-- Digit run accepted by Python `int(...)`: decimal digits with single
underscores allowed between digits (not leading, trailing, or doubled).
`acc` is the value so far and `prevDigit` records whether the previous
character was a digit. -/
def pyDigitsAux : List Char → Nat → Bool → Option Nat
  | [], acc, prevDigit => if prevDigit then some acc else none
  | c :: cs, acc, prevDigit =>
    if c.isDigit then pyDigitsAux cs (10 * acc + (c.toNat - 48)) true
    else if c == '_' && prevDigit then pyDigitsAux cs acc false
    else none

/-- Strip leading and trailing whitespace, as Python `int(...)` does before
parsing. -/
def pyStripWs (cs : List Char) : List Char :=
  ((cs.dropWhile Char.isWhitespace).reverse.dropWhile Char.isWhitespace).reverse

/-- Python `int(s)` on a string (line 91): optional surrounding whitespace, an
optional sign, then a nonempty digit run; `none` models the `ValueError` raised
on anything else. -/
def pyIntOfString (s : String) : Option Int :=
  match pyStripWs s.toList with
  | '+' :: rest => (pyDigitsAux rest 0 false).map (fun n => (n : Int))
  | '-' :: rest => (pyDigitsAux rest 0 false).map (fun n => -(n : Int))
  | cs => (pyDigitsAux cs 0 false).map (fun n => (n : Int))

/-- The kind/rate extraction performed by `MovesenseSensor.from_path` (lines
88-91): unpack `path.split("/")` into exactly four names (a count other than
four raises `ValueError`), evaluate `int(sampling_rate)` (raising `ValueError`
on a malformed rate segment), then resolve the tag and the rate exactly as the
constructor does, propagating their errors. -/
def from_path_parse (path : String) :
    Except PyErr (MovesenseSensorType × MovesenseSamplingRate) :=
  match pySplitSlash path with
  | [_, _, st, sr] =>
    match pyIntOfString sr with
    | none => .error (.malformedPath path)
    | some n =>
      match initSensorType (.vstr st) with
      | .error e => .error e
      | .ok k =>
        match initSamplingRate (.vint n) with
        | .error e => .error e
        | .ok r => .ok (k, r)
  | _ => .error (.malformedPath path)

/-- `np.linspace(start, stop, num)` with default `endpoint=True`, in exact
rational arithmetic: `num` evenly spaced points from `start` to `stop`
inclusive; a single point is `start`; zero points is the empty list. -/
def linspace (start stop : ℚ) (num : Nat) : List ℚ :=
  match num with
  | 0 => []
  | 1 => [start]
  | m + 2 =>
    (List.range (m + 2)).map
      (fun i : Nat => start + (stop - start) * (i : ℚ) / ((m + 1 : Nat) : ℚ))

/-- Row-major reshape: `k` successive rows of `a` consecutive elements each,
taken from the front of the flat list. -/
def reshapeGo (a : Nat) : Nat → List ℚ → List (List ℚ)
  | 0, _ => []
  | k + 1, l => l.take a :: reshapeGo a k (l.drop a)

/-- `np.array(data).reshape(-1, a)` on a flat buffer whose length is a multiple
of `a` (line 99): `length / a` rows of `a` columns, row-major. -/
def reshapeRows (buf : List ℚ) (a : Nat) : List (List ℚ) :=
  reshapeGo a (buf.length / a) buf

/-- `MovesenseSensor.notification_handler(device_address, data)` (lines
93-116), with the ambient wall-clock reading `datetime.datetime.now()
.timestamp()` passed in as `now`.  The numpy reshape raises (and nothing is
appended) when the buffer length is not a multiple of the kind's axis count;
otherwise the per-row timestamps are `np.linspace(-T_s*n, 0, n) + now` with
`T_s = 1/rate` and `n` the number of rows, and one sample dict per row is
appended to `self.data` in row order.  The returned sensor is the
post-invocation state; on an exception the state is unchanged. -/
def notification_handler (s : MovesenseSensor) (device_address : String)
    (buf : List ℚ) (now : ℚ) : Except PyErr Unit × MovesenseSensor :=
  let a := s.sensor_type.axes
  if buf.length % a = 0 then
    let rows := reshapeRows buf a
    let T_s : ℚ := 1 / ((s.sampling_rate.value : ℚ))
    let n := rows.length
    let stamps := (linspace (-(T_s * (n : ℚ))) 0 n).map (fun x => x + now)
    let newSamples := (stamps.zip rows).map
      (fun p => { timestamp := p.1, device := device_address,
                  sensor_type := s.sensor_type.value, sensor_data := p.2 : Sample })
    (.ok (), { s with data := s.data ++ newSamples })
  else
    (.error (.malformedBuffer buf.length a), s)

/-- One construction request for the id-allocation model: either a direct
`MovesenseSensor(sensor_type, sampling_rate)` call or a
`MovesenseSensor.from_path(path)` call. -/
inductive ConstructReq
  | direct : PyVal → PyVal → ConstructReq
  | ofPath : String → ConstructReq

/-- Run one construction request against the current value of the class-level
`id_counter`, returning the result and the new counter (lines 72-91). -/
def runOne : ConstructReq → Nat → Except PyErr MovesenseSensor × Nat
  | .direct st sr, c => initSensor st sr c
  | .ofPath p, c =>
    match pySplitSlash p with
    | [_, _, st, sr] =>
      match pyIntOfString sr with
      | some n => initSensor (.vstr st) (.vint n) c
      | none => (.error (.malformedPath p), c)
    | _ => (.error (.malformedPath p), c)

/-- Run a sequence of construction requests, threading the process-wide
counter through, and collect the per-request results in order. -/
def runAll : List ConstructReq → Nat → List (Except PyErr MovesenseSensor) × Nat
  | [], c => ([], c)
  | r :: rs, c =>
    let p := runOne r c
    let q := runAll rs p.2
    (p.1 :: q.1, q.2)

/-- The id of a successful construction, as a zero-or-one element list. -/
def okId : Except PyErr MovesenseSensor → List Nat
  | .ok s => [s.id]
  | .error _ => []

/-- The ids of the successfully constructed sensors of a result list, in
construction order. -/
def okIds (l : List (Except PyErr MovesenseSensor)) : List Nat :=
  l.flatMap okId

/-- Whether a construction request passes kind/rate validation (a property of
the request alone, independent of the id counter). -/
def validatesReq : ConstructReq → Bool
  | .direct st sr => (initSensorType st).isOk && (initSamplingRate sr).isOk
  | .ofPath p =>
    match pySplitSlash p with
    | [_, _, st, sr] =>
      match pyIntOfString sr with
      | some n => (initSensorType (.vstr st)).isOk && (initSamplingRate (.vint n)).isOk
      | none => false
    | _ => false

/-- Modelled from the claim's wording (spec section 4.1): return the first kind
whose wire-tag equals the tag; if none, the first kind whose wire-tag is a
prefix of the tag; if none, the legacy alias maps the literal tag to the
9-axis kind; otherwise fail.  This is the two-pass reading of the lookup rule,
to be compared with the interleaved single scan the source performs. -/
def lookupByTagClaim (tag : String) : Except PyErr MovesenseSensorType :=
  match sensorTypeMembers.find? (fun m => m.value == tag) with
  | some m => .ok m
  | none =>
    match sensorTypeMembers.find? (fun m => pyStartsWithStr tag m.value) with
    | some m => .ok m
    | none =>
      if tag == "IMU" then .ok .IMU9
      else .error (.unknownSensorKind (.vstr tag))

/-- Timestamps the decoder actually assigns, in closed form: for a single row
the timestamp is one full sampling period before the arrival time; for `n ≥ 2`
rows the timestamps are evenly spaced, ending exactly at the arrival time, with
row `i` at `t - T*n*(n-1-i)/(n-1)` (spacing `T*n/(n-1)`, first row at
`t - T*n`). -/
def amendedTimestamps (t T : ℚ) (n : Nat) : List ℚ :=
  if n = 1 then [t - T]
  else
    (List.range n).map
      (fun i : Nat => t - T * (n : ℚ) * (((n : ℚ) - 1 - (i : ℚ)) / ((n : ℚ) - 1)))

/-- A concrete accelerometer sensor subscribed at 104 Hz, as produced by a
first construction in a fresh process. -/
def accSensor104 : MovesenseSensor :=
  { sensor_type := .ACCELEROMETER, sampling_rate := ._104_HZ, id := 0,
    path := 1 :: 0 :: utf8Bytes (pathText .ACCELEROMETER ._104_HZ), data := [] }

/-- Every catalog kind has a positive axis count. -/
theorem axes_pos (k : MovesenseSensorType) : 0 < k.axes := by
  cases k <;> decide

/-- Row-major reshape into `k` rows produces exactly `k` rows. -/
theorem reshapeGo_length (a : Nat) : ∀ (k : Nat) (l : List ℚ), (reshapeGo a k l).length = k
  | 0, _ => rfl
  | k + 1, l => by simp [reshapeGo, reshapeGo_length a k]

/-- Row `i` of the row-major reshape is the contiguous slice
`l[i*a .. i*a + a - 1]` of the flat buffer. -/
theorem reshapeGo_eq_map (a : Nat) :
    ∀ (k : Nat) (l : List ℚ),
      reshapeGo a k l = (List.range k).map (fun i => (l.drop (i * a)).take a)
  | 0, l => by simp [reshapeGo]
  | k + 1, l => by
    rw [reshapeGo, reshapeGo_eq_map a k (l.drop a), List.range_succ_eq_map]
    simp only [List.map_cons, List.map_map, Nat.zero_mul, List.drop_zero]
    congr 1
    apply List.map_congr_left
    intro i _
    simp only [Function.comp_apply, List.drop_drop]
    congr 2
    rw [Nat.succ_eq_add_one]
    ring

/-- `linspace` produces exactly `num` points. -/
theorem linspace_length (a b : ℚ) (n : Nat) : (linspace a b n).length = n := by
  match n with
  | 0 => rfl
  | 1 => rfl
  | m + 2 =>
    rw [show linspace a b (m + 2)
          = (List.range (m + 2)).map
              (fun i : Nat => a + (b - a) * (i : ℚ) / ((m + 1 : Nat) : ℚ)) from rfl]
    rw [List.length_map, List.length_range]

/-- The decoder's timestamp vector `np.linspace(-T*n, 0, n) + t` in closed
form: one sampling period before `t` for a single row, and for `n ≥ 2` rows
the evenly spaced sequence ending at `t` with spacing `T*n/(n-1)`. -/
theorem linspace_map_add_eq_amended (t T : ℚ) :
    ∀ n : Nat, 1 ≤ n →
      (linspace (-(T * (n : ℚ))) 0 n).map (fun x => x + t) = amendedTimestamps t T n := by
  intro n hn
  match n with
  | 1 =>
    rw [show linspace (-(T * ((1 : Nat) : ℚ))) 0 1 = [-(T * ((1 : Nat) : ℚ))] from rfl,
      amendedTimestamps, if_pos rfl]
    simp only [List.map_cons, List.map_nil, Nat.cast_one, List.cons.injEq, and_true]
    ring
  | m + 2 =>
    rw [show linspace (-(T * ((m + 2 : Nat) : ℚ))) 0 (m + 2)
          = (List.range (m + 2)).map
              (fun i : Nat => -(T * ((m + 2 : Nat) : ℚ))
                + (0 - -(T * ((m + 2 : Nat) : ℚ))) * (i : ℚ) / ((m + 1 : Nat) : ℚ)) from rfl,
      amendedTimestamps, if_neg (by omega), List.map_map]
    apply List.map_congr_left
    intro i _
    simp only [Function.comp_apply]
    have hm : ((m : ℚ) + 1) ≠ 0 := by positivity
    push_cast
    have h2 : ((m : ℚ) + 2) - 1 = (m : ℚ) + 1 := by ring
    rw [h2]
    field_simp
    ring

/-- Successful run of the decoder in closed form: when the buffer length is
`n * axes`, the handler succeeds and appends the zip of the shifted linspace
timestamps with the reshaped rows, in row order. -/
theorem handler_ok_core (s : MovesenseSensor) (d : String) (buf : List ℚ) (t : ℚ)
    (n : Nat) (hlen : buf.length = n * s.sensor_type.axes) :
    notification_handler s d buf t
      = (.ok (),
         { s with data := (s.data ++
            List.map
              (fun p => Sample.mk p.1 d s.sensor_type.value p.2)
              (List.zip
                (List.map (fun x => x + t)
                  (linspace (-(1 / (s.sampling_rate.value : ℚ) * (n : ℚ))) 0 n))
                (reshapeGo s.sensor_type.axes n buf))) }) := by
  have ha : 0 < s.sensor_type.axes := axes_pos _
  have hmod : buf.length % s.sensor_type.axes = 0 := by
    rw [hlen]; exact Nat.mul_mod_left _ _
  have hdiv : buf.length / s.sensor_type.axes = n := by
    rw [hlen]; exact Nat.mul_div_cancel _ ha
  unfold notification_handler reshapeRows
  rw [if_pos hmod, hdiv]
  simp only [reshapeGo_length]

/-- The samples a successful decode appends, projected to their timestamps:
exactly the shifted linspace vector. -/
theorem handler_new_timestamps (s : MovesenseSensor) (d : String) (buf : List ℚ) (t : ℚ)
    (n : Nat) (hlen : buf.length = n * s.sensor_type.axes) :
    (((notification_handler s d buf t).2.data.drop s.data.length).map Sample.timestamp)
      = (linspace (-(1 / (s.sampling_rate.value : ℚ) * (n : ℚ))) 0 n).map (fun x => x + t) := by
  rw [handler_ok_core s d buf t n hlen]
  simp only [List.drop_left, List.map_map]
  rw [show (Sample.timestamp ∘ fun p : ℚ × List ℚ => Sample.mk p.1 d s.sensor_type.value p.2)
        = Prod.fst from rfl]
  apply List.map_fst_zip
  rw [List.length_map, linspace_length, reshapeGo_length]

/-- C1 (amended): for a buffer of `n ≥ 1` rows decoded at arrival time `t`
with rate `R`, the assigned timestamps are `amendedTimestamps t (1/R) n`: for
`n ≥ 2` an evenly spaced ascending sequence ending exactly at `t` with row `i`
at `t - (1/R)*n*(n-1-i)/(n-1)` (spacing `(1/R)*n/(n-1)`, not `1/R`), and for
`n = 1` the single row at `t - 1/R` (not `t`). -/
theorem C1_decoder_timestamp_schedule (s : MovesenseSensor) (d : String) (buf : List ℚ)
    (t : ℚ) (n : Nat) (hn : 1 ≤ n) (hlen : buf.length = n * s.sensor_type.axes) :
    (((notification_handler s d buf t).2.data.drop s.data.length).map Sample.timestamp)
      = amendedTimestamps t (1 / (s.sampling_rate.value : ℚ)) n := by
  rw [handler_new_timestamps s d buf t n hlen]
  exact linspace_map_add_eq_amended t _ n hn

/-- C1 is false as stated: decoding the two-row buffer `[1,2,3,4,5,6]` on an
accelerometer at 104 Hz with arrival time 1000 assigns the first row the
timestamp `1000 - 2*(1/104)`, not the claimed `1000 - (1/104)*(2-1-0) =
1000 - 1/104` (and the spacing is `2/104`, not `1/104`). -/
theorem C1_counterexample :
    (((notification_handler accSensor104 "dev" [1, 2, 3, 4, 5, 6] 1000).2.data.map
        Sample.timestamp)
      = [1000 - 2 * (1 / 104), 1000])
    ∧ (1000 - 2 * (1 / 104) : ℚ) ≠ 1000 - 1 / 104 := by
  constructor
  · norm_num [notification_handler, reshapeRows, reshapeGo, linspace, accSensor104,
      MovesenseSensorType.axes, MovesenseSamplingRate.value, MovesenseSensorType.value,
      List.range_succ]
  · norm_num

/-- Witness for C1 (amended) at the concrete two-row accelerometer packet. -/
theorem C1_witness :
    (1 ≤ 2 ∧ ([1, 2, 3, 4, 5, 6] : List ℚ).length = 2 * accSensor104.sensor_type.axes)
    ∧ (((notification_handler accSensor104 "dev" [1, 2, 3, 4, 5, 6] 1000).2.data.drop
          accSensor104.data.length).map Sample.timestamp)
        = amendedTimestamps 1000 (1 / (accSensor104.sampling_rate.value : ℚ)) 2 :=
  ⟨⟨by norm_num, by decide⟩,
   C1_decoder_timestamp_schedule accSensor104 "dev" [1, 2, 3, 4, 5, 6] 1000 2
     (by norm_num) (by decide)⟩

/-- C10: a buffer holding exactly one sample (length equal to the axis count),
decoded at arrival time `t` with rate `R`, is assigned the timestamp
`t - 1/R` — one sampling period before the arrival time, not the arrival time
itself (`np.linspace(-T, 0, 1)` is `[-T]`). -/
theorem C10_single_sample_timestamp (s : MovesenseSensor) (d : String) (buf : List ℚ)
    (t : ℚ) (hlen : buf.length = s.sensor_type.axes) :
    (((notification_handler s d buf t).2.data.drop s.data.length).map Sample.timestamp)
      = [t - 1 / (s.sampling_rate.value : ℚ)] := by
  have h1 : buf.length = 1 * s.sensor_type.axes := by rw [hlen, Nat.one_mul]
  rw [handler_new_timestamps s d buf t 1 h1]
  rw [show linspace (-(1 / (s.sampling_rate.value : ℚ) * ((1 : Nat) : ℚ))) 0 1
        = [-(1 / (s.sampling_rate.value : ℚ) * ((1 : Nat) : ℚ))] from rfl]
  simp only [List.map_cons, List.map_nil, Nat.cast_one, List.cons.injEq, and_true]
  ring

/-- Witness for C10 at a concrete one-row accelerometer packet. -/
theorem C10_witness :
    (([1, 2, 3] : List ℚ).length = accSensor104.sensor_type.axes)
    ∧ (((notification_handler accSensor104 "dev" [1, 2, 3] 500).2.data.drop
          accSensor104.data.length).map Sample.timestamp)
        = [500 - 1 / (accSensor104.sampling_rate.value : ℚ)] :=
  ⟨by decide, C10_single_sample_timestamp accSensor104 "dev" [1, 2, 3] 500 (by decide)⟩

/-- C2: decoding a buffer of length `k * axes` appends exactly `k` samples, in
row order, row `i` carrying the contiguous slice `buffer[i*axes .. (i+1)*axes
- 1]` (row-major reshape) as its axis values, and every appended sample
carrying the caller's device address and the kind's wire-tag. -/
theorem C2_decoder_reshape_rows (s : MovesenseSensor) (d : String) (buf : List ℚ)
    (t : ℚ) (k : Nat) (hlen : buf.length = k * s.sensor_type.axes) :
    (notification_handler s d buf t).1 = .ok ()
    ∧ (notification_handler s d buf t).2.data.length = s.data.length + k
    ∧ (((notification_handler s d buf t).2.data.drop s.data.length).map
          (fun smp => (smp.device, smp.sensor_type, smp.sensor_data)))
        = (List.range k).map
            (fun i => (d, s.sensor_type.value,
              (buf.drop (i * s.sensor_type.axes)).take s.sensor_type.axes)) := by
  rw [handler_ok_core s d buf t k hlen]
  refine ⟨rfl, ?_, ?_⟩
  · simp [List.length_zip, linspace_length, reshapeGo_length]
  · rw [List.drop_left, List.map_map]
    have hle : (reshapeGo s.sensor_type.axes k buf).length ≤
        (List.map (fun x => x + t)
          (linspace (-(1 / (s.sampling_rate.value : ℚ) * (k : ℚ))) 0 k)).length := by
      rw [List.length_map, linspace_length, reshapeGo_length]
    rw [show ((fun smp : Sample => (smp.device, smp.sensor_type, smp.sensor_data)) ∘
          fun p : ℚ × List ℚ => Sample.mk p.1 d s.sensor_type.value p.2)
          = ((fun row : List ℚ => (d, s.sensor_type.value, row)) ∘ Prod.snd) from rfl,
      ← List.map_map, List.map_snd_zip _ _ hle, reshapeGo_eq_map, List.map_map]
    rfl

/-- Witness for C2: the accelerometer packet `[1,2,3,4,5,6]` yields rows
`[1,2,3]` then `[4,5,6]`, both tagged with the device and the wire-tag. -/
theorem C2_witness :
    (([1, 2, 3, 4, 5, 6] : List ℚ).length = 2 * accSensor104.sensor_type.axes)
    ∧ (((notification_handler accSensor104 "dev" [1, 2, 3, 4, 5, 6] 1000).2.data.drop
          accSensor104.data.length).map
          (fun smp => (smp.device, smp.sensor_type, smp.sensor_data)))
        = (List.range 2).map
            (fun i => ("dev", accSensor104.sensor_type.value,
              (([1, 2, 3, 4, 5, 6] : List ℚ).drop (i * accSensor104.sensor_type.axes)).take
                accSensor104.sensor_type.axes)) :=
  ⟨by decide,
   (C2_decoder_reshape_rows accSensor104 "dev" [1, 2, 3, 4, 5, 6] 1000 2 (by decide)).2.2⟩

/-- C6: a buffer whose length is not a multiple of the axis count makes the
decoder fail with the malformed-buffer error and leave the sensor unchanged
(nothing appended); and on every call the sample log is the only state that
changes, by appending only: kind, rate, id and path are untouched and the old
log is preserved as a prefix. -/
theorem C6_malformed_buffer_and_append_only (s : MovesenseSensor) (d : String)
    (buf : List ℚ) (t : ℚ) :
    (¬ buf.length % s.sensor_type.axes = 0 →
        notification_handler s d buf t
          = (.error (.malformedBuffer buf.length s.sensor_type.axes), s))
    ∧ (notification_handler s d buf t).2.sensor_type = s.sensor_type
    ∧ (notification_handler s d buf t).2.sampling_rate = s.sampling_rate
    ∧ (notification_handler s d buf t).2.id = s.id
    ∧ (notification_handler s d buf t).2.path = s.path
    ∧ ((notification_handler s d buf t).2.data.take s.data.length) = s.data := by
  unfold notification_handler
  by_cases h : buf.length % s.sensor_type.axes = 0
  · rw [if_pos h]
    exact ⟨fun hc => absurd h hc, rfl, rfl, rfl, rfl, List.take_left _ _⟩
  · rw [if_neg h]
    exact ⟨fun _ => rfl, rfl, rfl, rfl, rfl, by simp⟩

/-- Witness for C6: a two-element buffer on a three-axis kind fails with the
malformed-buffer error and leaves the sensor unchanged. -/
theorem C6_witness :
    (¬ ([1, 2] : List ℚ).length % accSensor104.sensor_type.axes = 0)
    ∧ notification_handler accSensor104 "dev" [1, 2] 1000
        = (.error (.malformedBuffer ([1, 2] : List ℚ).length accSensor104.sensor_type.axes),
           accSensor104) :=
  ⟨by decide,
   (C6_malformed_buffer_and_append_only accSensor104 "dev" [1, 2] 1000).1 (by decide)⟩

/-- C3 is false on the code (code bug): passing already-typed catalog members
to the constructor does not pass them through.  The guard compares the
argument with the enum *class* by identity (`x is MovesenseSensorType`), which
is false for a member, so `from_string`/`from_int` re-run on the member:
`from_string` crashes with `AttributeError` at `value.startswith(...)` and
`from_int` raises `ValueError`, so construction from typed members fails
(here shown at a concrete typed pair, with the id counter untouched). -/
theorem C3_typed_values_crash :
    initSensorType (.vtype .ACCELEROMETER) = .error (.attributeError "startswith")
    ∧ initSamplingRate (.vrate ._104_HZ)
        = .error (.unknownSamplingRate (.vrate ._104_HZ))
    ∧ initSensor (.vtype .ACCELEROMETER) (.vrate ._104_HZ) 0
        = (.error (.attributeError "startswith"), 0) := by decide

/-- C7: for every id in `[0, 255]` and every catalog kind/rate pair, the
subscription path is byte-for-byte `[0x01, id]` followed by the UTF-8 text
`"/Meas/<tag>/<rate>"`, and every id above 255 fails with the out-of-range
error. -/
theorem C7_encode_wire_format (sid : Nat) (k : MovesenseSensorType)
    (r : MovesenseSamplingRate) :
    (sid ≤ 255 →
        encodePath sid k r
          = .ok (1 :: sid :: utf8Bytes ("/Meas/" ++ k.value ++ "/" ++ Nat.repr r.value)))
    ∧ (255 < sid → encodePath sid k r = .error (.idOutOfRange sid)) := by
  constructor
  · intro h
    unfold encodePath
    rw [if_pos (by omega)]
    rfl
  · intro h
    unfold encodePath
    rw [if_neg (by omega)]

/-- Witness for C7 at id 5 (in range) and id 300 (out of range). -/
theorem C7_witness :
    (5 ≤ 255 ∧ 255 < 300)
    ∧ encodePath 5 .ACCELEROMETER ._13_HZ
        = .ok (1 :: 5 :: utf8Bytes ("/Meas/" ++ (MovesenseSensorType.ACCELEROMETER).value
            ++ "/" ++ Nat.repr ((MovesenseSamplingRate._13_HZ).value)))
    ∧ encodePath 300 .ACCELEROMETER ._13_HZ = .error (.idOutOfRange 300) :=
  ⟨⟨by norm_num, by norm_num⟩,
   (C7_encode_wire_format 5 .ACCELEROMETER ._13_HZ).1 (by norm_num),
   (C7_encode_wire_format 300 .ACCELEROMETER ._13_HZ).2 (by norm_num)⟩

/-- C8: the catalog lookups are left inverses of the projections — for every
fixed kind `K`, `from_string(K.value) = K`, and for every fixed rate `R`,
`from_int(R.value) = R`. -/
theorem C8_lookups_left_inverse :
    (∀ k : MovesenseSensorType, fromStringVal (.vstr k.value) = .ok k)
    ∧ (∀ r : MovesenseSamplingRate, fromIntVal (.vint (r.value : Int)) = .ok r) := by
  constructor <;> decide

/-- Two predicates that agree on the members of a list find the same first
match. -/
theorem find?_congr_on {α : Type} (p q : α → Bool) :
    ∀ l : List α, (∀ x ∈ l, p x = q x) → l.find? p = l.find? q := by
  intro l
  induction l with
  | nil => intro _; rfl
  | cons x xs ih =>
    intro h
    rw [List.find?_cons, List.find?_cons, h x (by simp)]
    cases q x
    · exact ih (fun y hy => h y (by simp [hy]))
    · rfl

/-- On a string argument whose value is not the legacy alias, the
`from_string` scan returns the first member whose tag equals the argument or
is a prefix of it, and fails when there is none (per member, equality is
checked before the prefix test, and equality implies the prefix test). -/
theorem fromStringValGo_vstr_eq_find (tag : String) (h : ("IMU" == tag) = false)
    (l : List MovesenseSensorType) :
    fromStringValGo (.vstr tag) l
      = match l.find? (fun m => (m.value == tag) || pyStartsWithStr tag m.value) with
        | some m => .ok m
        | none => .error (.unknownSensorKind (.vstr tag)) := by
  induction l with
  | nil => rfl
  | cons m rest ih =>
    rw [List.find?_cons]
    simp only [fromStringValGo, pyEqStr, pyStartsWith]
    by_cases he : (m.value == tag) = true
    · simp [he]
    · rw [Bool.not_eq_true] at he
      simp only [he, Bool.false_or]
      by_cases hb : pyStartsWithStr tag m.value = true
      · simp [hb]
      · rw [Bool.not_eq_true] at hb
        simp only [hb, h, if_false]
        exact ih

/-- C4: for every input string, `from_string` is extensionally the rule the
spec states — first kind whose wire-tag equals the tag, else first kind whose
wire-tag is a prefix of the tag, else the legacy alias mapping the literal
string to `IMU9` when nothing matched during the scan, else the
unknown-sensor-kind failure; in particular the alias resolves to `IMU9`. -/
theorem C4_lookup_scan_order :
    (∀ tag : String, fromStringVal (.vstr tag) = lookupByTagClaim tag)
    ∧ fromStringVal (.vstr "IMU") = .ok .IMU9 := by
  refine ⟨fun tag => ?_, by decide⟩
  by_cases h1 : tag = "Acc"
  · subst h1; decide
  by_cases h2 : tag = "Gyro"
  · subst h2; decide
  by_cases h3 : tag = "Magn"
  · subst h3; decide
  by_cases h4 : tag = "Temp"
  · subst h4; decide
  by_cases h5 : tag = "ECG"
  · subst h5; decide
  by_cases h6 : tag = "HR"
  · subst h6; decide
  by_cases h7 : tag = "IMU6"
  · subst h7; decide
  by_cases h8 : tag = "IMU9"
  · subst h8; decide
  by_cases h9 : tag = "IMU"
  · subst h9; decide
  have e1 : ("Acc" == tag) = false := beq_eq_false_iff_ne.mpr (fun e => h1 e.symm)
  have e2 : ("Gyro" == tag) = false := beq_eq_false_iff_ne.mpr (fun e => h2 e.symm)
  have e3 : ("Magn" == tag) = false := beq_eq_false_iff_ne.mpr (fun e => h3 e.symm)
  have e4 : ("Temp" == tag) = false := beq_eq_false_iff_ne.mpr (fun e => h4 e.symm)
  have e5 : ("ECG" == tag) = false := beq_eq_false_iff_ne.mpr (fun e => h5 e.symm)
  have e6 : ("HR" == tag) = false := beq_eq_false_iff_ne.mpr (fun e => h6 e.symm)
  have e7 : ("IMU6" == tag) = false := beq_eq_false_iff_ne.mpr (fun e => h7 e.symm)
  have e8 : ("IMU9" == tag) = false := beq_eq_false_iff_ne.mpr (fun e => h8 e.symm)
  have hi : ("IMU" == tag) = false := beq_eq_false_iff_ne.mpr (fun e => h9 e.symm)
  have hi2 : (tag == "IMU") = false := beq_eq_false_iff_ne.mpr h9
  rw [fromStringVal, fromStringValGo_vstr_eq_find tag hi sensorTypeMembers]
  have hcong : sensorTypeMembers.find? (fun m => (m.value == tag) || pyStartsWithStr tag m.value)
      = sensorTypeMembers.find? (fun m => pyStartsWithStr tag m.value) := by
    apply find?_congr_on
    intro x _
    cases x <;> simp [MovesenseSensorType.value, e1, e2, e3, e4, e5, e6, e7, e8]
  rw [hcong]
  have heqnone : sensorTypeMembers.find? (fun m => m.value == tag) = none := by
    simp [sensorTypeMembers, List.find?_cons, MovesenseSensorType.value,
      e1, e2, e3, e4, e5, e6, e7, e8]
  unfold lookupByTagClaim
  rw [heqnone]
  cases hfb : sensorTypeMembers.find? (fun m => pyStartsWithStr tag m.value) with
  | some m => rfl
  | none => simp [hi2]

/-- C5: path decoding splits on `/` into exactly four segments, fails with
the malformed-path error when the segment count is not four or the rate
segment is not a valid integer, and otherwise resolves tag then rate through
the two catalogs, propagating their failures; composed with encoding it
recovers exactly the kind and rate that were encoded, for every catalog pair;
and the two concrete scenarios hold. -/
theorem C5_path_codec_round_trip :
    (∀ (k : MovesenseSensorType) (r : MovesenseSamplingRate),
        from_path_parse (pathText k r) = .ok (k, r))
    ∧ (∀ path : String, (pySplitSlash path).length ≠ 4 →
        from_path_parse path = .error (.malformedPath path))
    ∧ (∀ (path s0 s1 st sr : String), pySplitSlash path = [s0, s1, st, sr] →
        from_path_parse path
          = match pyIntOfString sr with
            | none => .error (.malformedPath path)
            | some n =>
              match initSensorType (.vstr st) with
              | .error e => .error e
              | .ok k =>
                match initSamplingRate (.vint n) with
                | .error e => .error e
                | .ok r => .ok (k, r))
    ∧ from_path_parse "/Meas/Gyro/208" = .ok (.GYROSCOPE, ._208_HZ)
    ∧ from_path_parse "/Meas/Gyro/999" = .error (.unknownSamplingRate (.vint 999)) := by
  refine ⟨by decide, ?_, ?_, by decide, by decide⟩
  · intro path h
    unfold from_path_parse
    rcases hs : pySplitSlash path with _ | ⟨a, _ | ⟨b, _ | ⟨c, _ | ⟨e, _ | ⟨f, rest⟩⟩⟩⟩⟩ <;>
      first | rfl | (rw [hs] at h; simp at h)
  · intro path s0 s1 st sr h
    unfold from_path_parse
    rw [h]

/-- Witness for C5: a three-segment path fails with the malformed-path
error. -/
theorem C5_witness :
    ((pySplitSlash "Meas/Gyro/208").length ≠ 4
      ∧ from_path_parse "Meas/Gyro/208" = .error (.malformedPath "Meas/Gyro/208")) :=
  ⟨by decide, C5_path_codec_round_trip.2.1 "Meas/Gyro/208" (by decide)⟩

/-- The ids of a result list split at its head. -/
theorem okIds_cons (x : Except PyErr MovesenseSensor)
    (l : List (Except PyErr MovesenseSensor)) :
    okIds (x :: l) = okId x ++ okIds l := by
  simp [okIds]

/-- One constructor call either fails validation (leaving the counter
untouched and constructing nothing) or passes it (incrementing the counter,
and constructing a sensor carrying the old counter value as its id exactly
when that value fits in the path's id byte). -/
theorem initSensor_step (st sr : PyVal) (c : Nat) :
    (((initSensorType st).isOk && (initSamplingRate sr).isOk) = false →
        (initSensor st sr c).2 = c ∧ okId (initSensor st sr c).1 = [])
    ∧ (((initSensorType st).isOk && (initSamplingRate sr).isOk) = true →
        (initSensor st sr c).2 = c + 1
          ∧ okId (initSensor st sr c).1 = if c < 256 then [c] else []) := by
  unfold initSensor
  cases hst : initSensorType st with
  | error e => simp [Except.isOk, Except.toBool, okId]
  | ok k =>
    cases hsr : initSamplingRate sr with
    | error e => simp [Except.isOk, Except.toBool, okId]
    | ok r =>
      constructor
      · intro h
        simp [Except.isOk, Except.toBool] at h
      · intro _
        unfold encodePath
        by_cases hc : c < 256
        · rw [if_pos hc]
          simp [okId, hc]
        · rw [if_neg hc]
          simp [okId, hc]

/-- The step behaviour of `initSensor` lifted to arbitrary construction
requests, including reconstruction from a path. -/
theorem runOne_step (r : ConstructReq) (c : Nat) :
    (validatesReq r = false → (runOne r c).2 = c ∧ okId (runOne r c).1 = [])
    ∧ (validatesReq r = true →
        (runOne r c).2 = c + 1 ∧ okId (runOne r c).1 = if c < 256 then [c] else []) := by
  cases r with
  | direct st sr => exact initSensor_step st sr c
  | ofPath p =>
    simp only [runOne, validatesReq]
    rcases hs : pySplitSlash p with _ | ⟨a, _ | ⟨b, _ | ⟨st, _ | ⟨sr, _ | ⟨e, rest⟩⟩⟩⟩⟩
    · exact ⟨fun _ => ⟨rfl, rfl⟩, fun h => Bool.noConfusion h⟩
    · exact ⟨fun _ => ⟨rfl, rfl⟩, fun h => Bool.noConfusion h⟩
    · exact ⟨fun _ => ⟨rfl, rfl⟩, fun h => Bool.noConfusion h⟩
    · exact ⟨fun _ => ⟨rfl, rfl⟩, fun h => Bool.noConfusion h⟩
    · dsimp only
      cases hn : pyIntOfString sr with
      | none => exact ⟨fun _ => ⟨rfl, rfl⟩, fun h => Bool.noConfusion h⟩
      | some n => exact initSensor_step (.vstr st) (.vint n) c
    · exact ⟨fun _ => ⟨rfl, rfl⟩, fun h => Bool.noConfusion h⟩

/-- Invariant of a construction sequence started at counter `c`: the ids of
the successfully constructed sensors are the consecutive integers from `c`,
one per validated request, truncated to those below 256. -/
theorem runAll_okIds (rs : List ConstructReq) :
    ∀ c : Nat,
      okIds (runAll rs c).1
        = (List.range' c (rs.countP validatesReq)).filter (fun i => decide (i < 256)) := by
  induction rs with
  | nil => intro c; simp [runAll, okIds]
  | cons r rs ih =>
    intro c
    show okIds ((runOne r c).1 :: (runAll rs (runOne r c).2).1) = _
    rw [okIds_cons]
    by_cases hv : validatesReq r = true
    · obtain ⟨h2, h3⟩ := (runOne_step r c).2 hv
      rw [h2, h3, ih (c + 1), List.countP_cons, if_pos hv, List.range'_succ,
        List.filter_cons]
      by_cases hc : c < 256 <;> simp [hc]
    · have hv' : validatesReq r = false := by
        revert hv; cases validatesReq r <;> simp
      obtain ⟨h2, h3⟩ := (runOne_step r c).1 hv'
      rw [h2, h3, ih c, List.countP_cons, if_neg hv]
      simp

/-- Filtering the first `v` naturals below 256 leaves an initial range. -/
theorem range_filter_lt256 (v : Nat) :
    (List.range v).filter (fun i => decide (i < 256)) = List.range (min v 256) := by
  induction v with
  | zero => simp
  | succ v ih =>
    rw [List.range_succ, List.filter_append, ih]
    by_cases h : v < 256
    · have h1 : min v 256 = v := by omega
      have h2 : min (v + 1) 256 = v + 1 := by omega
      rw [h1, h2]
      simp [h, List.range_succ]
    · have h1 : min v 256 = 256 := by omega
      have h2 : min (v + 1) 256 = 256 := by omega
      rw [h1, h2]
      simp [h]

/-- C9: for every sequence of constructions in one process (direct calls and
reconstructions from paths alike), the ids assigned to the successfully
constructed sensors are exactly `0, 1, 2, ...` in construction order —
strictly increasing, starting at 0, never reused. -/
theorem C9_id_allocation (reqs : List ConstructReq) :
    okIds (runAll reqs 0).1 = List.range (okIds (runAll reqs 0).1).length
    ∧ List.Pairwise (· < ·) (okIds (runAll reqs 0).1) := by
  have h0 := runAll_okIds reqs 0
  have h1 : okIds (runAll reqs 0).1 = List.range (min (reqs.countP validatesReq) 256) := by
    rw [h0, ← List.range_eq_range', range_filter_lt256]
  constructor
  · rw [h1, List.length_range]
  · rw [h1]
    exact List.pairwise_lt_range _
